import Mathlib

/-!
Verification development for the AnonX music-bot repository.

This file gives a shallow embedding, in Lean 4, of the parts of the
repository that the specification talks about:

  - the API response parser `_parse_tracks_response` and the search
    primary/legacy fallback logic (`src/helpers/_api.py`),
  - the Spotify download pipeline: `rebuild_ogg`, `decrypt_audio`,
    `fix_audio`, `_cleanup`, `_extract_zip`, `process_original`
    (`src/helpers/_dl_helper.py`),
  - the `download_track` orchestrator (`src/helpers/_api.py`).

Python values flowing through the JSON layer are modelled by the
inductive type `PyVal`; Python truthiness is modelled explicitly.
External collaborators that are not part of the provided sources
(the HTTP client, the configuration module, the dataclasses, the
AES primitive of the pycryptodome library, the filesystem and the
ffmpeg subprocess) are modelled as oracle inputs, following the
contracts stated for them by the specification.  Exceptions are
modelled with `Except`; a function that cannot raise is a plain
total function.
-/

/-- A Python/JSON value as it can appear in an API response.
Booleans are subsumed by `int` (as in Python, where bool is an int
subtype); this is enough for every value the parser inspects. -/
inductive PyVal where
  | null
  | int (n : Int)
  | str (s : String)
  | list (xs : List PyVal)
  | dict (kvs : List (String × PyVal))

/-- Python truthiness of a `PyVal`: `None`, `0`, empty string, empty
list and empty dict are falsy, everything else is truthy. -/
def pyTruthy : PyVal → Bool
  | .null => false
  | .int n => n != 0
  | .str s => s != ""
  | .list xs => !xs.isEmpty
  | .dict kvs => !kvs.isEmpty

/-- Truthiness of an optional value: a missing value is falsy. -/
def pyTruthyO : Option PyVal → Bool
  | some v => pyTruthy v
  | none => false

/-- Python dict key lookup (`d[k]` and the `k in d` test): the first
binding of the key, if any. -/
def dictLookup (kvs : List (String × PyVal)) (k : String) : Option PyVal :=
  match kvs.find? (fun p => p.1 == k) with
  | some p => some p.2
  | none => none

/-- Python iteration (`for x in v`): lists yield their elements,
strings their one-character substrings, dicts their keys; `None` and
numbers are not iterable (iterating them raises `TypeError`),
modelled by `none`. -/
def pyIterate : PyVal → Option (List PyVal)
  | .list xs => some xs
  | .str s => some (s.toList.map (fun ch => PyVal.str (String.mk [ch])))
  | .dict kvs => some (kvs.map (fun p => PyVal.str p.1))
  | .null => none
  | .int _ => none

/-- True exactly on Python mappings (`isinstance(track, dict)`). -/
def pyIsDict : PyVal → Bool
  | .dict _ => true
  | _ => false

/-- The key/value bindings of a dict, empty for non-dicts. -/
def pyDictOf : PyVal → List (String × PyVal)
  | .dict kvs => kvs
  | _ => []

/-- Modelled from the spec: `MusicTrack` is defined in
`_dataclass.py`, which is not among the provided sources.  The spec
describes it as a record built by unpacking one mapping entry of the
`results` array (`MusicTrack(**track)`); we model the constructed
record as carrying exactly that mapping. -/
structure MusicTrack where
  fields : List (String × PyVal)

/-- Shallow embedding of `ApiData._parse_tracks_response`
(`src/helpers/_api.py`, lines 241-260).

```
if not data or not isinstance(data, dict) or "results" not in data:
    return None
valid_tracks = [MusicTrack(**track) for track in data["results"]
                if track and isinstance(track, dict)]
return PlatformTracks(tracks=valid_tracks) if valid_tracks else None
```

The guard returns `None` for falsy inputs, non-dicts and dicts
without a `results` key.  Iterating a non-iterable `results` value
raises `TypeError` (the `.error` case).  An entry is kept only when
it is truthy and a dict - so the empty dict is dropped as well.
A `PlatformTracks` value is represented by its (nonempty) track
list. -/
def parse_tracks_response (data : PyVal) : Except Unit (Option (List MusicTrack)) :=
  match data with
  | .dict kvs =>
    if kvs.isEmpty then .ok none
    else
      match dictLookup kvs "results" with
      | none => .ok none
      | some rv =>
        match pyIterate rv with
        | none => .error ()
        | some entries =>
          let tracks := (entries.filter (fun t => pyTruthy t && pyIsDict t)).map
            (fun t => MusicTrack.mk (pyDictOf t))
          if tracks.isEmpty then .ok none else .ok (some tracks)
  | _ => .ok none

/-- Follows the words of claim C8 (refinement reference, not a
translation of the source): an entry of `results` is dropped exactly
when it is null or not a mapping; every remaining entry is kept in
order; if zero entries remain the result is none. -/
def claimedParseTracks (data : PyVal) : Except Unit (Option (List MusicTrack)) :=
  match data with
  | .dict kvs =>
    if kvs.isEmpty then .ok none
    else
      match dictLookup kvs "results" with
      | none => .ok none
      | some rv =>
        match pyIterate rv with
        | none => .error ()
        | some entries =>
          let tracks := (entries.filter (fun t => pyIsDict t)).map
            (fun t => MusicTrack.mk (pyDictOf t))
          if tracks.isEmpty then .ok none else .ok (some tracks)
  | _ => .ok none

/-- Result of the legacy branch of `ApiData.search`
(`src/helpers/_api.py`, lines 147-149):
`data = await self._make_api_request("search_track", {"q": ...})`
followed by `return self._parse_tracks_response(data) if data else None`.
The legacy endpoint response is an oracle input; per the spec contract
of the HTTP client it returns a JSON mapping or none and does not
raise.  A raise of the legacy parse (non-iterable results) is not
guarded and propagates. -/
def searchLegacyPath (legacy : Option (List (String × PyVal))) :
    Except Unit (Option (List MusicTrack)) :=
  match legacy with
  | none => .ok none
  | some d => parse_tracks_response (.dict d)

/-- Shallow embedding of the primary/fallback part of `ApiData.search`
(`src/helpers/_api.py`, lines 137-149), for a non-empty, non-URL query.

```
try:
    response = await self.client.make_request(new_search_url, params=params)
    if response and "results" in response and response["results"]:
        return self._parse_tracks_response(response)
except Exception as e:
    LOGGER.warning(f"New Spotify search API failed: {e}")
data = await self._make_api_request("search_track", {"q": self.query})
return self._parse_tracks_response(data) if data else None
```

The primary call is an oracle input: `.error ()` models a transport
exception of `make_request`, `.ok none` a failed request, `.ok (some d)`
a JSON mapping response (per the annotated `Optional[dict]` contract).
The returned pair is (result of the call, whether the legacy endpoint
was invoked).  A primary exception, a falsy response, a missing or
falsy `results` value, and a raise of the parse inside the guarded
block all fall through to the legacy call. -/
def search (primary : Except Unit (Option (List (String × PyVal))))
    (legacy : Option (List (String × PyVal))) :
    Except Unit (Option (List MusicTrack)) × Bool :=
  match primary with
  | .error _ => (searchLegacyPath legacy, true)
  | .ok resp =>
    match resp with
    | none => (searchLegacyPath legacy, true)
    | some d =>
      if pyTruthy (.dict d) && pyTruthyO (dictLookup d "results") then
        match parse_tracks_response (.dict d) with
        | .ok r => (.ok r, false)
        | .error _ => (searchLegacyPath legacy, true)
      else (searchLegacyPath legacy, true)

/-- The exact condition, read off the source of `ApiData.search`,
under which the legacy endpoint is invoked. -/
def searchPrimaryMisses
    (primary : Except Unit (Option (List (String × PyVal)))) : Bool :=
  match primary with
  | .error _ => true
  | .ok none => true
  | .ok (some d) =>
    if pyTruthy (.dict d) && pyTruthyO (dictLookup d "results") then
      match parse_tracks_response (.dict d) with
      | .ok _ => false
      | .error _ => true
    else true

/-- Follows the words of claim C4 (refinement reference, not a
translation of the source): the legacy fallback runs exactly when the
primary call throws, returns no usable response (per the spec, a
response is usable only if it is a mapping containing a `results`
key), or returns an empty results list. -/
def claimedLegacyTrigger
    (primary : Except Unit (Option (List (String × PyVal)))) : Bool :=
  match primary with
  | .error _ => true
  | .ok none => true
  | .ok (some d) =>
    match dictLookup d "results" with
    | none => true
    | some rv =>
      match rv with
      | .list [] => true
      | _ => false

/-- The fixed initialisation vector hard-coded in
`SpotifyDownload.decrypt_audio` (`src/helpers/_dl_helper.py`, line 80):
`iv = bytes.fromhex("72e067fbddcbcf77ebe8bc643f630d93")`, read as a
big-endian 128-bit integer (`int.from_bytes(iv, "big")`). -/
def SPOTIFY_IV_INT : Nat := 0x72e067fbddcbcf77ebe8bc643f630d93

/-- The keystream byte at stream position `n` of AES in counter mode,
as configured by `decrypt_audio`: the counter starts at the fixed IV
and advances by one per 16-byte block, wrapping modulo 2^128
(`Counter.new(128, initial_value=iv_int)`).  The AES block primitive
itself belongs to the pycryptodome library, an external collaborator;
it is abstracted as the parameter `E`, mapping a counter value to a
16-byte keystream block.  Instantiating `E` with AES under any 16-byte
key yields the cipher of the source. -/
def ctrKeystream (E : Nat → List Nat) (ivInt : Nat) (n : Nat) : Nat :=
  (E ((ivInt + n / 16) % 2 ^ 128)).getD (n % 16) 0

/-- XOR of a byte stream against the keystream, starting at stream
position `off`.  In counter mode, encryption and decryption are this
same operation. -/
def ctrXor (ks : Nat → Nat) : Nat → List Nat → List Nat
  | _, [] => []
  | off, b :: rest => (b ^^^ ks off) :: ctrXor ks (off + 1) rest

/-- The chunked read/decrypt/write loop of `decrypt_audio`
(`src/helpers/_dl_helper.py`, lines 86-93): the source is consumed in
8 KiB chunks, each chunk is pushed through the single streaming cipher
state (whose position is the number of bytes already consumed), and
the outputs are concatenated in order.

```
chunk_size = 8192
while chunk := await fin.read(chunk_size):
    decrypted_chunk = cipher.decrypt(chunk)
    await fout.write(decrypted_chunk)
``` -/
def decryptChunks (ks : Nat → Nat) (off : Nat) (data : List Nat) : List Nat :=
  if data.isEmpty then []
  else
    ctrXor ks off (data.take 8192) ++ decryptChunks ks (off + 8192) (data.drop 8192)
termination_by data.length
decreasing_by
  simp only [List.length_drop]
  cases data with
  | nil => simp_all
  | cons a l => simp; omega

/-- The byte-level effect of `SpotifyDownload.decrypt_audio` on the
contents of the encrypted file: chunked counter-mode decryption with
the fixed IV, block primitive `E`. -/
def decrypt_audio_bytes (E : Nat → List Nat) (data : List Nat) : List Nat :=
  decryptChunks (ctrKeystream E SPOTIFY_IV_INT) 0 data

/-- In-place write of the byte string `bs` at byte offset `off` of a
file with contents `c`, after `seek(off)`: bytes in `[off, off+|bs|)`
become `bs`, all other existing bytes keep their value, and a seek
past the end zero-fills the gap (POSIX file semantics).  The file
grows to `off + |bs|` when the write extends it. -/
def writeAt (c : List Nat) (off : Nat) (bs : List Nat) : List Nat :=
  (List.range (max c.length (off + bs.length))).map
    (fun i => if off ≤ i ∧ i < off + bs.length then bs.getD (i - off) 0 else c.getD i 0)

/-- `b"OggS"` (`src/helpers/_dl_helper.py`, line 32). -/
def oggS : List Nat := [0x4f, 0x67, 0x67, 0x53]

/-- `b"\x00" * 10` (line 33). -/
def tenZeroes : List Nat := [0, 0, 0, 0, 0, 0, 0, 0, 0, 0]

/-- `b"\x01\x1e\x01vorbis"` (line 34), the Vorbis identification
header marker written by `rebuild_ogg`. -/
def vorbisStart : List Nat := [0x01, 0x1e, 0x01, 0x76, 0x6f, 0x72, 0x62, 0x69, 0x73]

/-- `b"\x02"` (line 35): channel count 2. -/
def channelsBytes : List Nat := [0x02]

/-- `b"\x44\xac\x00\x00"` (line 36): 44100 in 4 little-endian bytes. -/
def sampleRateBytes : List Nat := [0x44, 0xac, 0x00, 0x00]

/-- `b"\x00\xe2\x04\x00"` (line 37): 320000 in 4 little-endian bytes. -/
def bitRateBytes : List Nat := [0x00, 0xe2, 0x04, 0x00]

/-- `b"\xb8\x01"` (line 38): the segment table size marker. -/
def packetSizesBytes : List Nat := [0xb8, 0x01]

/-- Little-endian decoding of a byte string. -/
def leNat (bs : List Nat) : Nat :=
  bs.foldr (fun b acc => b + 256 * acc) 0

/-- The seek/write sequence of `rebuild_ogg`
(`src/helpers/_dl_helper.py`, lines 40-57), in source order. -/
def oggPatches : List (Nat × List Nat) :=
  [(0, oggS), (6, tenZeroes), (26, vorbisStart), (39, channelsBytes),
   (40, sampleRateBytes), (48, bitRateBytes), (56, packetSizesBytes),
   (58, oggS), (62, tenZeroes)]

/-- The effect of `rebuild_ogg` on the contents of an existing file:
each patch is written in place at its fixed offset, in source order. -/
def rebuildContent (c : List Nat) : List Nat :=
  oggPatches.foldl (fun acc p => writeAt acc p.1 p.2) c

/-- Shallow embedding of `rebuild_ogg` (`src/helpers/_dl_helper.py`,
lines 22-59): `none` models a missing file, for which the function
logs and returns without touching anything and without raising;
otherwise the file is patched in place.  No write in the model fails,
matching a normal in-place read/write open; any exception during the
writes would be logged and swallowed by the source. -/
def rebuild_ogg : Option (List Nat) → Option (List Nat)
  | none => none
  | some c => some (rebuildContent c)

/-- Follows the fixed byte-range table of claim C6 and spec section
4.3 (refinement reference): the byte the repaired file must hold at
each offset - a patched constant inside the nine ranges, the previous
byte everywhere else. -/
def rebuildSpecByte (c : List Nat) (i : Nat) : Nat :=
  if 0 ≤ i ∧ i < 4 then oggS.getD (i - 0) 0
  else if 6 ≤ i ∧ i < 16 then tenZeroes.getD (i - 6) 0
  else if 26 ≤ i ∧ i < 35 then vorbisStart.getD (i - 26) 0
  else if 39 ≤ i ∧ i < 40 then channelsBytes.getD (i - 39) 0
  else if 40 ≤ i ∧ i < 44 then sampleRateBytes.getD (i - 40) 0
  else if 48 ≤ i ∧ i < 52 then bitRateBytes.getD (i - 48) 0
  else if 56 ≤ i ∧ i < 58 then packetSizesBytes.getD (i - 56) 0
  else if 58 ≤ i ∧ i < 62 then oggS.getD (i - 58) 0
  else if 62 ≤ i ∧ i < 72 then tenZeroes.getD (i - 62) 0
  else c.getD i 0

/-- Modelled from the spec: `config.DOWNLOADS_DIR` comes from the
configuration module, which is not among the provided sources; the
spec calls it an externally configured download directory used as the
root for all artifact paths.  Its concrete value only feeds name
construction, so a fixed constant is enough. -/
def DOWNLOADS_DIR : String := "downloads"

/-- A track descriptor (`TrackInfo`), restricted to the fields the
downloading code reads.  String fields model Python strings, with the
empty string as the falsy value ( `not x` in the source). -/
structure Track where
  platform : String
  url : String
  id : String
  tc : String
  cdnurl : String
  key : String

/-- `os.path.join(config.DOWNLOADS_DIR, f"{track.tc}.encrypted.ogg")`
(`src/helpers/_dl_helper.py`, lines 66-68). -/
def encrypted_file (t : Track) : String :=
  DOWNLOADS_DIR ++ "/" ++ t.tc ++ ".encrypted.ogg"

/-- `os.path.join(config.DOWNLOADS_DIR, f"{track.tc}.decrypted.ogg")`
(lines 69-71). -/
def decrypted_file (t : Track) : String :=
  DOWNLOADS_DIR ++ "/" ++ t.tc ++ ".decrypted.ogg"

/-- `os.path.join(config.DOWNLOADS_DIR, f"{track.tc}.ogg")` (line 72). -/
def output_file (t : Track) : String :=
  DOWNLOADS_DIR ++ "/" ++ t.tc ++ ".ogg"

/-- Existence on disk of the three per-track artifacts named from the
track cache-key token.  The cache directory is namespaced per token,
so these three flags are the only filesystem state the pipeline for
one track reads or writes. -/
structure FsState where
  outputExists : Bool
  encExists : Bool
  decExists : Bool
deriving DecidableEq

/-- The externally observable side effects of one pipeline run, in
order: a network transfer, a decryption pass, a header repair pass, a
repack (ffmpeg) invocation. -/
inductive Effect where
  | network
  | decrypt
  | repair
  | repack
deriving DecidableEq

/-- Shallow embedding of `SpotifyDownload.decrypt_audio`
(`src/helpers/_dl_helper.py`, lines 74-96).  Opening a missing
encrypted source file raises `FileNotFoundError`; the `except` clause
logs every exception and then re-raises it (`LOGGER.error(...);
raise`), so a missing source propagates exactly like any other
failure.  `decOk` is the oracle for the decryption pass itself
(read/write errors); on success the decrypted file exists. -/
def decrypt_audio (fs : FsState) (decOk : Bool) : Except Unit FsState :=
  if !fs.encExists then .error ()
  else if decOk then .ok { fs with decExists := true }
  else .error ()

/-- Shallow embedding of `SpotifyDownload.fix_audio` (lines 98-119):
run ffmpeg with stream copy into the output file; a non-zero exit
code is logged and raised (`CalledProcessError`), any other exception
is logged and re-raised.  `fixOk` is the subprocess oracle; on
success the final output artifact exists. -/
def fix_audio (fs : FsState) (fixOk : Bool) : Except Unit FsState :=
  if fixOk then .ok { fs with outputExists := true } else .error ()

/-- Shallow embedding of `SpotifyDownload._cleanup` (lines 121-130):
remove the encrypted and decrypted intermediates when present;
removal errors are logged and swallowed, so the function never
raises.  Removal itself is modelled as succeeding (`os.remove`
semantics without fault injection). -/
def cleanup (fs : FsState) : FsState :=
  { fs with encExists := false, decExists := false }

/-- Oracle outcomes for one run of the legacy pipeline.  Modelled
from the spec: the HTTP client download operation (an external
collaborator) returns a structured success/failure result and does
not raise; `downloadOk` tells whether it fetched the encrypted file.
`decOk` and `fixOk` drive `decrypt_audio` and `fix_audio`. -/
structure POEnv where
  downloadOk : Bool
  decOk : Bool
  fixOk : Bool

/-- Result of one run of `process_original`: the returned value
(`None` on failure), the filesystem afterwards, and the effect
trace. -/
structure POOut where
  result : Option String
  fs : FsState
  effects : List Effect
deriving DecidableEq

/-- Shallow embedding of `SpotifyDownload.process_original`
(`src/helpers/_dl_helper.py`, lines 156-183).

```
if os.path.exists(self.output_file):
    return self.output_file
if not self.track.cdnurl or not self.track.key:
    return None
try:
    await self.client.download_file(self.track.cdnurl, self.encrypted_file)
    await self.decrypt_audio()
    await rebuild_ogg(self.decrypted_file)
    await self.fix_audio()
    await self._cleanup()
    return self.output_file
except Exception as e:
    await self._cleanup()
    return None
```

The existing-output short circuit and the missing-credential guard
return before the `try` block, so they perform no network call, no
pipeline step and no cleanup.  Inside the block, a download failure
leaves the encrypted file absent (the result of `download_file` is
not checked), which makes `decrypt_audio` raise; `rebuild_ogg` never
raises; both exits of the block run `_cleanup`. -/
def process_original (t : Track) (fs : FsState) (env : POEnv) : POOut :=
  if fs.outputExists then
    { result := some (output_file t), fs := fs, effects := [] }
  else if t.cdnurl == "" || t.key == "" then
    { result := none, fs := fs, effects := [] }
  else
    let fs1 := if env.downloadOk then { fs with encExists := true } else fs
    match decrypt_audio fs1 env.decOk with
    | .error _ =>
      { result := none, fs := cleanup fs1, effects := [.network, .decrypt] }
    | .ok fs2 =>
      match fix_audio fs2 env.fixOk with
      | .error _ =>
        { result := none, fs := cleanup fs2,
          effects := [.network, .decrypt, .repair, .repack] }
      | .ok fs3 =>
        { result := some (output_file t), fs := cleanup fs3,
          effects := [.network, .decrypt, .repair, .repack] }

/-- Python `str.lower()`, per character (sufficient for the ASCII
platform names, URLs and suffixes the source compares). -/
def strLower (s : String) : String :=
  String.mk (s.toList.map Char.toLower)

/-- Python `str.endswith(p)`. -/
def strEndsWith (s p : String) : Bool :=
  p.toList.reverse.isPrefixOf s.toList.reverse

/-- The destination path of an extracted archive entry:
`Path(config.DOWNLOADS_DIR) / file_name`
(`src/helpers/_dl_helper.py`, line 148). -/
def mp3Path (name : String) : String :=
  DOWNLOADS_DIR ++ "/" ++ name

/-- The extraction loop of `SpotifyDownload._extract_zip` (lines
144-148): walk the archive name list in order, extract every entry
whose name ends with `.mp3`, and collect the destination paths.
`failures` is the oracle for `zip_ref.extract` raising on a given
entry (corrupt member, filesystem error); the first failing extracted
entry aborts the loop with that exception. -/
def extractZipLoop (failures : List String) :
    List String → List String → Except Unit (List String)
  | [], acc => .ok acc.reverse
  | n :: rest, acc =>
    if strEndsWith n ".mp3" then
      if failures.contains n then .error ()
      else extractZipLoop failures rest (mp3Path n :: acc)
    else extractZipLoop failures rest acc

/-- Shallow embedding of `SpotifyDownload._extract_zip`
(`src/helpers/_dl_helper.py`, lines 132-154): run the extraction
loop, then delete the archive (`os.remove(zip_path)`, oracle
`removeOk`); any exception anywhere in the `try` block is caught and
turned into an empty list, in which case the archive was not deleted.
The function itself never raises.  Returns the extracted paths and
whether the archive was deleted. -/
def extract_zip (names failures : List String) (removeOk : Bool) :
    List String × Bool :=
  match extractZipLoop failures names [] with
  | .error _ => ([], false)
  | .ok paths => if removeOk then (paths, true) else ([], false)

/-- The structured result of the HTTP client download operation.
Modelled from the spec: `download(url, destination?) ->
{success, path|none, error|none}`; `suffix` is `file_path.suffix`,
the extension of the stored file. -/
structure DlResult where
  success : Bool
  filePath : String
  suffix : String

/-- Oracle outcomes for one `download_track` call: the primary
archive-API download (`.error ()` models the call raising), the
content of a returned archive together with its extraction oracles,
the direct CDN download used for non-Spotify platforms, and the
oracles of a legacy-pipeline fallback run. -/
structure DTEnv where
  primaryCall : Except Unit DlResult
  zipNames : List String
  zipFailures : List String
  zipRemoveOk : Bool
  directCall : Except Unit DlResult
  poEnv : POEnv

/-- Python `a or b` on strings: the first operand when truthy
(non-empty), the second otherwise (`track.id or track.tc`). -/
def pyOrStr (a b : String) : String :=
  if a != "" then a else b

/-- Substring test on lists of characters. -/
def charsContain (pat l : List Char) : Bool :=
  l.tails.any (fun t => pat.isPrefixOf t)

/-- `"playlist" in track.url.lower()` (`src/helpers/_api.py`,
line 183). -/
def isPlaylistUrl (url : String) : Bool :=
  charsContain "playlist".toList (strLower url).toList

/-- Result of one `download_track` call: the returned value (a single
path, a list of extracted paths, or none), whether the legacy
fallback `process_original` ran, the filesystem afterwards, and the
effect trace. -/
structure DTOut where
  result : Option (Sum String (List String))
  ranFallback : Bool
  fs : FsState
  effects : List Effect
deriving DecidableEq

/-- Shallow embedding of `ApiData.download_track`
(`src/helpers/_api.py`, lines 164-239).  The whole body is one `try`
block; its `except` clause runs `SpotifyDownload(track).process_original()`
when the platform is Spotify and returns none otherwise.  On the
Spotify path: playlists use the track URL directly, single tracks
need `track.id or track.tc` and raise without any network call when
both are falsy; the primary download result is then dispatched on its
suffix - `.mp3` is returned as is, `.zip` goes through `_extract_zip`
(which never raises, so an empty extraction is returned, not
retried), any other suffix raises, and an unsuccessful result
raises.  On the non-Spotify path a falsy CDN URL returns none without
raising, a raising download lands in the handler, and an unsuccessful
one returns none. -/
def download_track (t : Track) (env : DTEnv) (fs : FsState) : DTOut :=
  let fallback := fun (effs : List Effect) =>
    if strLower t.platform == "spotify" then
      let po := process_original t fs env.poEnv
      { result := po.result.map Sum.inl, ranFallback := true,
        fs := po.fs, effects := effs ++ po.effects }
    else
      { result := none, ranFallback := false, fs := fs, effects := effs }
  if strLower t.platform == "spotify" then
    if !(isPlaylistUrl t.url) && pyOrStr t.id t.tc == "" then fallback []
    else
      match env.primaryCall with
      | .error _ => fallback [.network]
      | .ok r =>
        if r.success then
          let ct := strLower r.suffix
          if ct == ".mp3" then
            { result := some (.inl r.filePath), ranFallback := false,
              fs := fs, effects := [.network] }
          else if ct == ".zip" then
            { result := some (.inr (extract_zip env.zipNames env.zipFailures
                env.zipRemoveOk).1),
              ranFallback := false, fs := fs, effects := [.network] }
          else fallback [.network]
        else fallback [.network]
  else
    if t.cdnurl == "" then
      { result := none, ranFallback := false, fs := fs, effects := [] }
    else
      match env.directCall with
      | .error _ => fallback [.network]
      | .ok r =>
        if r.success then
          { result := some (.inl r.filePath), ranFallback := false,
            fs := fs, effects := [.network] }
        else
          { result := none, ranFallback := false, fs := fs, effects := [.network] }

/-- The exact condition, read off the source of `download_track`,
under which the primary Spotify archive path raises into the `except`
handler: a single-track request with no usable id, a raising download
call, an unsuccessful download result, or a content type other than
`.mp3` and `.zip`. -/
def spotifyPrimaryRaises (t : Track) (env : DTEnv) : Bool :=
  if !(isPlaylistUrl t.url) && pyOrStr t.id t.tc == "" then true
  else
    match env.primaryCall with
    | .error _ => true
    | .ok r =>
      if r.success then
        let ct := strLower r.suffix
        if ct == ".mp3" || ct == ".zip" then false else true
      else true

/-! ### Concrete fixtures used by witnesses and counterexamples -/

/-- A resolvable Spotify single-track descriptor. -/
def spotTrack : Track :=
  { platform := "spotify", url := "https://open.spotify.com/track/abc",
    id := "abc", tc := "abc", cdnurl := "http://cdn/abc", key := "aa" }

/-- A Spotify single-track descriptor with no usable id (both `id`
and `tc` falsy). -/
def noIdTrack : Track :=
  { platform := "spotify", url := "https://open.spotify.com/track/abc",
    id := "", tc := "", cdnurl := "http://cdn/abc", key := "aa" }

/-- A non-Spotify descriptor with a CDN URL. -/
def scTrack : Track :=
  { platform := "soundcloud", url := "https://soundcloud.com/a/b",
    id := "xyz", tc := "xyz", cdnurl := "http://cdn/xyz", key := "" }

/-- Oracle outcomes: the primary archive download succeeds and stores
an mp3 file. -/
def envMp3 : DTEnv :=
  { primaryCall := .ok { success := true, filePath := "downloads/abc123.mp3",
                         suffix := ".mp3" },
    zipNames := [], zipFailures := [], zipRemoveOk := true,
    directCall := .ok { success := false, filePath := "", suffix := "" },
    poEnv := { downloadOk := true, decOk := true, fixOk := true } }

/-- Oracle outcomes: both the primary archive download and the direct
CDN download raise; the legacy pipeline oracles all succeed. -/
def envRaise : DTEnv :=
  { primaryCall := .error (), zipNames := [], zipFailures := [],
    zipRemoveOk := true, directCall := .error (),
    poEnv := { downloadOk := true, decOk := true, fixOk := true } }

/-! ### Helper lemmas -/

theorem ctrXor_append (ks : Nat → Nat) (l₁ l₂ : List Nat) :
    ∀ off, ctrXor ks off (l₁ ++ l₂) =
      ctrXor ks off l₁ ++ ctrXor ks (off + l₁.length) l₂ := by
  induction l₁ with
  | nil => intro off; simp [ctrXor]
  | cons b rest ih =>
    intro off
    have h : off + (b :: rest).length = off + 1 + rest.length := by
      simp only [List.length_cons]; omega
    calc ctrXor ks off ((b :: rest) ++ l₂)
        = (b ^^^ ks off) :: ctrXor ks (off + 1) (rest ++ l₂) := rfl
      _ = (b ^^^ ks off) ::
            (ctrXor ks (off + 1) rest ++ ctrXor ks (off + 1 + rest.length) l₂) := by
          rw [ih (off + 1)]
      _ = ctrXor ks off (b :: rest) ++ ctrXor ks (off + (b :: rest).length) l₂ := by
          rw [h]; rfl

theorem ctrXor_involutive (ks : Nat → Nat) (l : List Nat) :
    ∀ off, ctrXor ks off (ctrXor ks off l) = l := by
  induction l with
  | nil => intro off; simp [ctrXor]
  | cons b rest ih =>
    intro off
    simp only [ctrXor, ih (off + 1)]
    congr 1
    rw [Nat.xor_assoc, Nat.xor_self, Nat.xor_zero]

theorem decryptChunks_eq_ctrXor (ks : Nat → Nat) :
    ∀ (n : Nat) (data : List Nat), data.length ≤ n →
      ∀ off, decryptChunks ks off data = ctrXor ks off data := by
  intro n
  induction n with
  | zero =>
    intro data h off
    have hd : data = [] := List.eq_nil_of_length_eq_zero (Nat.le_zero.mp h)
    subst hd
    rw [decryptChunks]
    simp [ctrXor]
  | succ n ih =>
    intro data h off
    rw [decryptChunks]
    by_cases hd : data.isEmpty
    · have : data = [] := List.isEmpty_iff.mp hd
      subst this; simp [ctrXor]
    · simp only [hd, Bool.false_eq_true, if_false]
      have hlen : 0 < data.length := by
        cases data with
        | nil => simp at hd
        | cons a l => simp
      have hdrop : (data.drop 8192).length ≤ n := by
        simp only [List.length_drop]; omega
      rw [ih (data.drop 8192) hdrop (off + 8192)]
      by_cases hbig : 8192 ≤ data.length
      · have htake : (data.take 8192).length = 8192 := by
          simp [List.length_take]; omega
        conv_rhs => rw [← List.take_append_drop 8192 data]
        rw [ctrXor_append, htake]
      · have hdropnil : data.drop 8192 = [] := by
          apply List.drop_eq_nil_of_le; omega
        have htakeall : data.take 8192 = data := by
          apply List.take_of_length_le; omega
        rw [hdropnil, htakeall]
        simp [ctrXor]

theorem writeAt_length (c : List Nat) (off : Nat) (bs : List Nat) :
    (writeAt c off bs).length = max c.length (off + bs.length) := by
  simp [writeAt]

theorem writeAt_getD (c : List Nat) (off : Nat) (bs : List Nat) (i : Nat) :
    (writeAt c off bs).getD i 0 =
      if off ≤ i ∧ i < off + bs.length then bs.getD (i - off) 0 else c.getD i 0 := by
  by_cases hi : i < max c.length (off + bs.length)
  · rw [writeAt, List.getD_eq_getElem?_getD, List.getElem?_map, List.getElem?_range hi]
    rfl
  · push_neg at hi
    have h1 : (writeAt c off bs).getD i 0 = 0 := by
      apply List.getD_eq_default
      rw [writeAt_length]; omega
    have h2 : ¬(off ≤ i ∧ i < off + bs.length) := by omega
    have h3 : c.getD i 0 = 0 := by
      apply List.getD_eq_default; omega
    rw [h1, if_neg h2, h3]

theorem rebuildContent_length (c : List Nat) :
    (rebuildContent c).length = max c.length 72 := by
  simp only [rebuildContent, oggPatches, List.foldl_cons, List.foldl_nil,
    writeAt_length, oggS, tenZeroes, vorbisStart, channelsBytes,
    sampleRateBytes, bitRateBytes, packetSizesBytes, List.length_cons,
    List.length_nil]
  omega

set_option maxHeartbeats 1000000 in
theorem rebuildContent_getD (c : List Nat) (i : Nat) :
    (rebuildContent c).getD i 0 = rebuildSpecByte c i := by
  simp only [rebuildContent, oggPatches, List.foldl_cons, List.foldl_nil]
  simp only [writeAt_getD, rebuildSpecByte, oggS, tenZeroes, vorbisStart,
    channelsBytes, sampleRateBytes, bitRateBytes, packetSizesBytes,
    List.length_cons, List.length_nil]
  norm_num
  split_ifs <;> omega

set_option maxHeartbeats 1000000 in
theorem rebuildSpecByte_rebuildContent (c : List Nat) (i : Nat) :
    rebuildSpecByte (rebuildContent c) i = rebuildSpecByte c i := by
  unfold rebuildSpecByte
  split_ifs with h1 h2 h3 h4 h5 h6 h7 h8 h9
  · rfl
  · rfl
  · rfl
  · rfl
  · rfl
  · rfl
  · rfl
  · rfl
  · rfl
  · rw [rebuildContent_getD]
    unfold rebuildSpecByte
    rw [if_neg h1, if_neg h2, if_neg h3, if_neg h4, if_neg h5, if_neg h6,
      if_neg h7, if_neg h8, if_neg h9]

theorem list_eq_of_getD (l₁ l₂ : List Nat) (hl : l₁.length = l₂.length)
    (h : ∀ i, l₁.getD i 0 = l₂.getD i 0) : l₁ = l₂ := by
  apply List.ext_getElem hl
  intro i h1 h2
  have hi := h i
  rwa [List.getD_eq_getElem l₁ 0 h1, List.getD_eq_getElem l₂ 0 h2] at hi

theorem extractZipLoop_eq (failures : List String) :
    ∀ (names acc : List String),
      extractZipLoop failures names acc =
        (if (names.filter (fun n => strEndsWith n ".mp3")).any
              (fun n => failures.contains n)
         then .error ()
         else .ok (acc.reverse ++
           (names.filter (fun n => strEndsWith n ".mp3")).map mp3Path)) := by
  intro names
  induction names with
  | nil => intro acc; simp [extractZipLoop]
  | cons n rest ih =>
    intro acc
    by_cases h : strEndsWith n ".mp3" = true
    · rw [List.filter_cons_of_pos (by exact h), List.any_cons]
      by_cases hf : failures.contains n = true
      · have hm : n ∈ failures := by simpa using hf
        simp [extractZipLoop, h, hf, hm]
      · have hm : n ∉ failures := by simpa using hf
        by_cases ha : ((rest.filter (fun m => strEndsWith m ".mp3")).any
            (fun m => failures.contains m)) = true
        · have he : ∃ x ∈ rest, strEndsWith x ".mp3" = true ∧ x ∈ failures := by
            simpa using ha
          simp [extractZipLoop, h, hf, ha, ih, hm, he]
        · have he : ¬ ∃ x ∈ rest, strEndsWith x ".mp3" = true ∧ x ∈ failures := by
            simpa using ha
          simp [extractZipLoop, h, hf, ha, ih, hm, he]
    · rw [List.filter_cons_of_neg (by simpa using h)]
      simp [extractZipLoop, h, ih acc]

/-! ### Claim theorems -/

/-- Claim C5: for every block-cipher instantiation `E` (hence every
16-byte AES key) with the fixed hard-coded IV, the chunked
counter-mode decryption performed by `decrypt_audio` composed with
counter-mode encryption under the same key and IV (the identical XOR
operation) is the identity on byte sequences of every length -
covering in particular L in {0, 1, 8191, 8192, 8193, 1000000} - and
the chunked processing equals the unchunked stream operation
independently of how the input splits across the 8 KiB chunk
boundaries. -/
theorem decrypt_audio_bytes_roundtrip :
    ∀ (E : Nat → List Nat),
      (∀ data : List Nat, decrypt_audio_bytes E (decrypt_audio_bytes E data) = data)
      ∧ (∀ (off : Nat) (data : List Nat),
          decryptChunks (ctrKeystream E SPOTIFY_IV_INT) off data =
            ctrXor (ctrKeystream E SPOTIFY_IV_INT) off data) := by
  intro E
  constructor
  · intro data
    have h1 := decryptChunks_eq_ctrXor (ctrKeystream E SPOTIFY_IV_INT)
      data.length data (Nat.le_refl data.length) 0
    have h2 := decryptChunks_eq_ctrXor (ctrKeystream E SPOTIFY_IV_INT)
      (ctrXor (ctrKeystream E SPOTIFY_IV_INT) 0 data).length
      (ctrXor (ctrKeystream E SPOTIFY_IV_INT) 0 data)
      (Nat.le_refl _) 0
    calc decrypt_audio_bytes E (decrypt_audio_bytes E data)
        = decryptChunks (ctrKeystream E SPOTIFY_IV_INT) 0
            (decryptChunks (ctrKeystream E SPOTIFY_IV_INT) 0 data) := rfl
      _ = ctrXor (ctrKeystream E SPOTIFY_IV_INT) 0
            (ctrXor (ctrKeystream E SPOTIFY_IV_INT) 0 data) := by rw [h1, h2]
      _ = data := ctrXor_involutive _ data 0
  · intro off data
    exact decryptChunks_eq_ctrXor _ data.length data (Nat.le_refl _) off

/-- Claim C6: on a missing file `rebuild_ogg` returns without error
and without change; on an existing file it overwrites exactly the
fixed byte ranges of the specification table - `OggS` at 0, ten zero
bytes at 6, the Vorbis identification marker at 26, channel count 2
at 39, sample rate 44100 as 4 little-endian bytes at 40, bit rate
320000 as 4 little-endian bytes at 48, the segment table size marker
at 56, `OggS` at 58, ten zero bytes at 62 - and leaves every other
byte unchanged (`rebuildSpecByte` is the byte-level reading of the
claim table; the file grows to at least 72 bytes when shorter). -/
theorem rebuild_ogg_fixed_offsets :
    rebuild_ogg none = none
    ∧ (∀ c, rebuild_ogg (some c) = some (rebuildContent c))
    ∧ (∀ c, (rebuildContent c).length = max c.length 72)
    ∧ (∀ c i, (rebuildContent c).getD i 0 = rebuildSpecByte c i)
    ∧ leNat sampleRateBytes = 44100
    ∧ leNat bitRateBytes = 320000
    ∧ channelsBytes = [2]
    ∧ oggS = [0x4f, 0x67, 0x67, 0x53] := by
  refine ⟨rfl, fun c => rfl, rebuildContent_length, rebuildContent_getD, ?_, ?_, rfl, rfl⟩
  · norm_num [leNat, sampleRateBytes]
  · norm_num [leNat, bitRateBytes]

/-- Claim C7: container repair is idempotent - applying `rebuild_ogg`
twice to any file yields a byte-identical result to applying it once,
because every write is an unconditional constant at a fixed offset. -/
theorem rebuild_ogg_idempotent :
    ∀ f, rebuild_ogg (rebuild_ogg f) = rebuild_ogg f := by
  intro f
  cases f with
  | none => rfl
  | some c =>
    have h : rebuildContent (rebuildContent c) = rebuildContent c := by
      apply list_eq_of_getD
      · rw [rebuildContent_length, rebuildContent_length]
        omega
      · intro i
        rw [rebuildContent_getD, rebuildContent_getD, rebuildSpecByte_rebuildContent]
    simp only [rebuild_ogg, h]

/-- Claim C10: `_extract_zip` never raises (it is a total function);
it returns the archive-order paths of exactly the entries whose names
end with `.mp3`, and deletes the archive, exactly when every such
extraction succeeds and the archive removal succeeds; on any
exception (a failing extraction or a failing removal) it returns an
empty list and the archive is not deleted. -/
theorem extract_zip_total_spec :
    ∀ (names failures : List String) (removeOk : Bool),
      extract_zip names failures removeOk =
        (if (names.filter (fun n => strEndsWith n ".mp3")).any
              (fun n => failures.contains n) || !removeOk
         then ([], false)
         else ((names.filter (fun n => strEndsWith n ".mp3")).map mp3Path, true)) := by
  intro names failures removeOk
  unfold extract_zip
  rw [extractZipLoop_eq failures names []]
  by_cases ha : ((names.filter (fun n => strEndsWith n ".mp3")).any
      (fun n => failures.contains n)) = true
  · have hr : ((names.filter (fun n => strEndsWith n ".mp3")).any
        (fun n => failures.contains n) || !removeOk) = true := by rw [ha]; rfl
    rw [if_pos ha, if_pos hr]
  · have ha2 : ((names.filter (fun n => strEndsWith n ".mp3")).any
        (fun n => failures.contains n)) = false := by
      cases h2 : ((names.filter (fun n => strEndsWith n ".mp3")).any
          (fun n => failures.contains n)) with
      | true => exact absurd h2 ha
      | false => rfl
    rw [if_neg ha, ha2]
    cases removeOk <;> rfl

/-- Claim C2, counterexample: with the encrypted source file missing
(`encExists = false`) and a decryption pass that would otherwise
succeed, `decrypt_audio` does not return normally - the
`FileNotFoundError` of the open is logged and re-raised (`except
Exception: LOGGER.error(...); raise`), so the call propagates the
failure instead of being a no-op. -/
theorem decrypt_audio_missing_source_raises :
    decrypt_audio { outputExists := false, encExists := false, decExists := false }
        true = .error () :=
  rfl

/-- Claim C2, amended: `decrypt_audio` logs and re-raises every
exception, including the `FileNotFoundError` raised for a missing
encrypted source file; it succeeds - writing the decrypted file - iff
the source exists and the decryption pass succeeds.  (Logging and
returning on a missing file is the behaviour of `rebuild_ogg`, not of
`decrypt_audio`.) -/
theorem decrypt_audio_propagates_all_failures :
    ∀ (fs : FsState) (decOk : Bool),
      decrypt_audio fs decOk =
        (if fs.encExists && decOk then .ok { fs with decExists := true }
         else .error ()) := by
  intro fs decOk
  cases h : fs.encExists with
  | false => simp [decrypt_audio, h]
  | true => cases decOk <;> simp [decrypt_audio, h]

/-- Claim C8, counterexample: on `{"results": [{}]}` the parser
returns none, although the single entry is a non-null mapping - the
filter `track and isinstance(track, dict)` also drops falsy mappings,
so the reading of the claim (drop only null and non-mapping entries,
then a non-empty result) computes one track where the code computes
none. -/
theorem parse_tracks_drops_empty_mapping :
    parse_tracks_response (.dict [("results", .list [.dict []])]) = .ok none
    ∧ claimedParseTracks (.dict [("results", .list [.dict []])])
        = .ok (some [MusicTrack.mk []]) :=
  ⟨rfl, rfl⟩

/-- Claim C8, amended: a usable parse result arises only from a
mapping containing a `results` key and is never an empty list; when
`results` is a list, the entries kept are exactly the truthy mappings
(so null entries, non-mapping entries and also the empty mapping are
silently dropped), in their original order; the spec example with two
mappings, a null and a string parses to exactly those 2 tracks in
order. -/
theorem parse_tracks_response_characterization :
    (∀ (kvs : List (String × PyVal)) (xs : List PyVal),
       dictLookup kvs "results" = some (.list xs) →
       parse_tracks_response (.dict kvs) =
         (if ((xs.filter (fun t => pyTruthy t && pyIsDict t)).map
               (fun t => MusicTrack.mk (pyDictOf t))).isEmpty
          then .ok none
          else .ok (some ((xs.filter (fun t => pyTruthy t && pyIsDict t)).map
            (fun t => MusicTrack.mk (pyDictOf t))))))
    ∧ (∀ (data : PyVal) (ts : List MusicTrack),
         parse_tracks_response data = .ok (some ts) →
         (∃ kvs, data = .dict kvs ∧ dictLookup kvs "results" ≠ none) ∧ ts ≠ [])
    ∧ parse_tracks_response (.dict [("results", .list
        [.dict [("id", .int 1)], .null, .dict [("id", .int 2)], .str "not-a-dict"])])
        = .ok (some [MusicTrack.mk [("id", .int 1)], MusicTrack.mk [("id", .int 2)]]) := by
  refine ⟨?_, ?_, rfl⟩
  · intro kvs xs hlk
    have hne : kvs.isEmpty = false := by
      cases kvs with
      | nil => simp [dictLookup] at hlk
      | cons a l => rfl
    simp only [parse_tracks_response, hne, Bool.false_eq_true, if_false, hlk,
      pyIterate]
  · intro data ts h
    cases data with
    | null => simp [parse_tracks_response] at h
    | int n => simp [parse_tracks_response] at h
    | str s => simp [parse_tracks_response] at h
    | list xs => simp [parse_tracks_response] at h
    | dict kvs =>
      by_cases hne : kvs.isEmpty = true
      · simp [parse_tracks_response, hne] at h
      · cases hlk : dictLookup kvs "results" with
        | none => simp [parse_tracks_response, hne, hlk] at h
        | some rv =>
          cases hit : pyIterate rv with
          | none => simp [parse_tracks_response, hne, hlk, hit] at h
          | some entries =>
            refine ⟨⟨kvs, rfl, by rw [hlk]; simp⟩, ?_⟩
            simp only [parse_tracks_response, hne, Bool.false_eq_true, if_false,
              hlk, hit] at h
            by_cases hemp : ((entries.filter (fun t => pyTruthy t && pyIsDict t)).map
                (fun t => MusicTrack.mk (pyDictOf t))).isEmpty = true
            · simp [hemp] at h
            · simp only [hemp, Bool.false_eq_true, if_false, Except.ok.injEq,
                Option.some.injEq] at h
              intro hts
              rw [h, hts] at hemp
              exact hemp rfl

/-- Claim C8 amended, witness: concrete instantiations of both
hypothesis-bearing parts - one nonempty mapping entry parses to one
track, and the usable result implies a mapping with a `results` key
and a nonempty track list. -/
theorem parse_tracks_response_characterization_witness :
    parse_tracks_response (.dict [("results", .list [.dict [("a", PyVal.null)]])])
      = .ok (some [MusicTrack.mk [("a", PyVal.null)]]) := by
  have h := parse_tracks_response_characterization.1
    [("results", PyVal.list [PyVal.dict [("a", PyVal.null)]])]
    [PyVal.dict [("a", PyVal.null)]] rfl
  exact h.trans (by rfl)

/-- Claim C4, counterexample: on a primary response
`{"results": 5}` - no exception from the endpoint call, a usable
mapping with a `results` key, and a results value that is not an
empty list - the legacy endpoint still runs (the guard passes, the
parse raises `TypeError` inside the `try` block, the exception is
caught and control falls through to the legacy call), while the
claimed trigger condition says it must not. -/
theorem search_runs_legacy_outside_claimed_trigger :
    (search (.ok (some [("results", PyVal.int 5)])) none).2 = true
    ∧ claimedLegacyTrigger (.ok (some [("results", PyVal.int 5)])) = false :=
  ⟨rfl, rfl⟩

/-- Claim C4, amended: the legacy search endpoint runs exactly when
the primary call throws, returns a falsy response, returns a mapping
without a truthy `results` value, or the parse of the primary
response raises inside the guarded block (non-iterable truthy
`results`); a primary exception is caught, never propagated, and the
legacy call then executes with its result returned. -/
theorem search_fallback_characterization :
    ∀ (primary : Except Unit (Option (List (String × PyVal))))
      (legacy : Option (List (String × PyVal))),
      (search primary legacy).2 = searchPrimaryMisses primary
      ∧ (primary = .error () →
          search primary legacy = (searchLegacyPath legacy, true)) := by
  intro primary legacy
  constructor
  · cases primary with
    | error e => cases e; rfl
    | ok resp =>
      cases resp with
      | none => rfl
      | some d =>
        simp only [search, searchPrimaryMisses]
        cases hc : (pyTruthy (.dict d) && pyTruthyO (dictLookup d "results")) with
        | true => cases hp : parse_tracks_response (.dict d) <;> rfl
        | false => rfl
  · intro hp
    subst hp
    rfl

/-- Claim C4 amended, witness: with a throwing primary call the
search returns the legacy path result and records that the legacy
endpoint ran. -/
theorem search_fallback_characterization_witness :
    search (.error ()) none = (searchLegacyPath none, true) :=
  (search_fallback_characterization (.error ()) none).2 rfl

/-- Claim C1, counterexample: a Spotify track whose final output
artifact `downloads/abc.ogg` already exists on disk.  Invoking the
orchestrator `download_track` still performs the primary network call
(effect trace `[network]`, not empty) and returns the path stored by
the primary endpoint, not the existing artifact path - the
existing-output short circuit is only inside `process_original`,
which the primary path never consults. -/
theorem download_track_existing_output_hits_network :
    download_track spotTrack envMp3
        { outputExists := true, encExists := false, decExists := false } =
      { result := some (.inl "downloads/abc123.mp3"), ranFallback := false,
        fs := { outputExists := true, encExists := false, decExists := false },
        effects := [.network] }
    ∧ Effect.network ∈ (download_track spotTrack envMp3
        { outputExists := true, encExists := false, decExists := false }).effects
    ∧ output_file spotTrack = "downloads/abc.ogg" := by
  refine ⟨rfl, ?_, ?_⟩
  · decide
  · rfl

/-- Claim C1, amended: the idempotent short circuit belongs to the
legacy pipeline, not to the orchestrator.  For every track whose
final output artifact exists, `process_original` returns that path
unchanged with an empty effect trace (no network call, no decrypt,
repair or repack step) and an untouched filesystem; `download_track`
itself, by contrast, always attempts the primary endpoint first (see
the counterexample). -/
theorem process_original_idempotent :
    ∀ (t : Track) (fs : FsState) (env : POEnv),
      fs.outputExists = true →
      process_original t fs env =
        { result := some (output_file t), fs := fs, effects := [] } := by
  intro t fs env h
  simp [process_original, h]

/-- Claim C1 amended, witness. -/
theorem process_original_idempotent_witness :
    process_original spotTrack
        { outputExists := true, encExists := false, decExists := false }
        { downloadOk := true, decOk := true, fixOk := true } =
      { result := some (output_file spotTrack),
        fs := { outputExists := true, encExists := false, decExists := false },
        effects := [] } :=
  process_original_idempotent spotTrack
    { outputExists := true, encExists := false, decExists := false }
    { downloadOk := true, decOk := true, fixOk := true } rfl

/-- Claim C3, counterexample: a run of `process_original` that starts
with the final output artifact present and a stale encrypted
intermediate on disk reaches the terminal success state (it returns
the output path) through the early short circuit, which performs no
cleanup - so the `.encrypted.ogg` file for the cache-key token still
exists afterwards. -/
theorem process_original_stale_intermediate_survives :
    (process_original spotTrack
        { outputExists := true, encExists := true, decExists := false }
        { downloadOk := true, decOk := true, fixOk := true }).result
      = some (output_file spotTrack)
    ∧ (process_original spotTrack
        { outputExists := true, encExists := true, decExists := false }
        { downloadOk := true, decOk := true, fixOk := true }).fs.encExists
      = true :=
  ⟨rfl, rfl⟩

/-- Claim C3, amended: for every run of `process_original` that
enters the download pipeline - the output artifact does not already
exist and both the CDN URL and the key are present - every terminal
state (the successful return of the output path as well as every
failure return of none) leaves neither the encrypted nor the
decrypted intermediate on disk, removal being modelled as
succeeding; `_cleanup` itself logs and swallows removal errors and
never raises.  The early returns (existing output, missing
credentials) perform no cleanup, so intermediates already on disk
survive them (see the counterexample). -/
theorem process_original_cleanup_after_pipeline :
    ∀ (t : Track) (fs : FsState) (env : POEnv),
      fs.outputExists = false → t.cdnurl ≠ "" → t.key ≠ "" →
      (process_original t fs env).fs.encExists = false
      ∧ (process_original t fs env).fs.decExists = false := by
  intro t fs env h1 h2 h3
  have hc : (t.cdnurl == "") = false := by simp [h2]
  have hk : (t.key == "") = false := by simp [h3]
  have hex : ∃ x, (process_original t fs env).fs = cleanup x := by
    simp only [process_original, h1, Bool.false_eq_true, if_false, hc, hk,
      Bool.or_self]
    split
    · exact ⟨_, rfl⟩
    · split
      · exact ⟨_, rfl⟩
      · exact ⟨_, rfl⟩
  obtain ⟨x, hx⟩ := hex
  rw [hx]
  exact ⟨rfl, rfl⟩

/-- Claim C3 amended, witness. -/
theorem process_original_cleanup_after_pipeline_witness :
    (process_original spotTrack
        { outputExists := false, encExists := false, decExists := false }
        { downloadOk := true, decOk := true, fixOk := true }).fs.encExists = false
    ∧ (process_original spotTrack
        { outputExists := false, encExists := false, decExists := false }
        { downloadOk := true, decOk := true, fixOk := true }).fs.decExists = false :=
  process_original_cleanup_after_pipeline spotTrack
    { outputExists := false, encExists := false, decExists := false }
    { downloadOk := true, decOk := true, fixOk := true }
    rfl (by decide) (by decide)

/-- Claim C9: the legacy fallback `process_original` runs exactly
when the platform is Spotify and the primary archive path raises
(network error from the download call, missing track id on the
single-track path, unsuccessful download result, or an unexpected
content type); when it runs, its result is what `download_track`
returns.  For every non-Spotify platform no fallback ever runs, and
an exception of the direct CDN download there is terminal with a none
result.  The primary single-track path raises whenever no track id is
available (`track.id or track.tc` falsy). -/
theorem download_track_fallback_policy :
    ∀ (t : Track) (env : DTEnv) (fs : FsState),
      ((download_track t env fs).ranFallback
        = ((strLower t.platform == "spotify") && spotifyPrimaryRaises t env))
      ∧ ((strLower t.platform == "spotify") = true →
          spotifyPrimaryRaises t env = true →
          (download_track t env fs).result
            = (process_original t fs env.poEnv).result.map Sum.inl)
      ∧ ((strLower t.platform == "spotify") = false →
          env.directCall = .error () → t.cdnurl ≠ "" →
          (download_track t env fs).result = none
          ∧ (download_track t env fs).ranFallback = false)
      ∧ (isPlaylistUrl t.url = false → pyOrStr t.id t.tc = "" →
          spotifyPrimaryRaises t env = true) := by
  intro t env fs
  refine ⟨?_, ?_, ?_, ?_⟩
  · cases hs : (strLower t.platform == "spotify") with
    | true =>
      simp only [download_track, spotifyPrimaryRaises, hs, if_true, Bool.true_and]
      by_cases hng : (!(isPlaylistUrl t.url) && (pyOrStr t.id t.tc == "")) = true
      · simp [hng, hs]
      · cases env.primaryCall with
        | error e => simp [hng, hs]
        | ok r =>
          cases hrs : r.success with
          | false => simp [hng, hrs, hs]
          | true =>
            by_cases hm : (strLower r.suffix == ".mp3") = true
            · simp [hng, hrs, hm]
            · by_cases hz : (strLower r.suffix == ".zip") = true
              · simp [hng, hrs, hm, hz]
              · simp [hng, hrs, hm, hz, hs]
    | false =>
      simp only [download_track, hs, Bool.false_eq_true, if_false, Bool.false_and]
      by_cases hc : (t.cdnurl == "") = true
      · simp [hc]
      · cases env.directCall with
        | error e => simp [hc, hs]
        | ok r => cases hrs : r.success <;> simp [hc, hrs, hs]
  · intro hs hr
    simp only [download_track, hs, if_true]
    by_cases hng : (!(isPlaylistUrl t.url) && (pyOrStr t.id t.tc == "")) = true
    · simp [hng, hs]
    · cases hpc : env.primaryCall with
      | error e => simp [hng, hs]
      | ok r =>
        cases hrs : r.success with
        | false => simp [hng, hrs, hs]
        | true =>
          by_cases hm : (strLower r.suffix == ".mp3") = true
          · exfalso
            have hfalse : spotifyPrimaryRaises t env = false := by
              simp [spotifyPrimaryRaises, hng, hpc, hrs, hm]
            rw [hfalse] at hr
            exact Bool.false_ne_true hr
          · by_cases hz : (strLower r.suffix == ".zip") = true
            · exfalso
              have hfalse : spotifyPrimaryRaises t env = false := by
                simp [spotifyPrimaryRaises, hng, hpc, hrs, hm, hz]
              rw [hfalse] at hr
              exact Bool.false_ne_true hr
            · simp [hng, hrs, hm, hz, hs]
  · intro hs hdc hcd
    have hc : (t.cdnurl == "") = false := by simp [hcd]
    simp [download_track, hs, hc, hdc]
  · intro hpl hid
    simp [spotifyPrimaryRaises, hpl, hid]

/-- Claim C9, witness: concrete instantiations of the three
hypothesis-bearing parts - a raising primary call on a Spotify track
returns the fallback result; a raising direct download on a
SoundCloud track is terminal with none and no fallback; a Spotify
single-track descriptor without id and cache token makes the primary
path raise. -/
theorem download_track_fallback_policy_witness :
    (download_track spotTrack envRaise
        { outputExists := false, encExists := false, decExists := false }).result
      = (process_original spotTrack
          { outputExists := false, encExists := false, decExists := false }
          envRaise.poEnv).result.map Sum.inl
    ∧ ((download_track scTrack envRaise
          { outputExists := false, encExists := false, decExists := false }).result
        = none
       ∧ (download_track scTrack envRaise
          { outputExists := false, encExists := false, decExists := false }).ranFallback
        = false)
    ∧ spotifyPrimaryRaises noIdTrack envMp3 = true := by
  refine ⟨?_, ?_, ?_⟩
  · exact (download_track_fallback_policy spotTrack envRaise
      { outputExists := false, encExists := false, decExists := false }).2.1 rfl rfl
  · exact (download_track_fallback_policy scTrack envRaise
      { outputExists := false, encExists := false, decExists := false }).2.2.1
      rfl rfl (by decide)
  · exact (download_track_fallback_policy noIdTrack envMp3
      { outputExists := false, encExists := false, decExists := false }).2.2.2 rfl rfl
